import Mathlib

/-!
Shallow embedding of the SURR-back media-library server (`src/index.js`).

JavaScript strings are Lean `String`s; JS `undefined`/`null` object fields
are `Option`; JS numbers that the program only defaults, stores and
compares are `Nat`.  External I/O (Google Drive, music-metadata,
MusicBrainz, LRCLIB, the system clock and the uuid generator) is modelled
by environment records carrying each call's outcome, so the HTTP handlers
become pure functions from an environment and a server state to a response
and a new state.
-/

/-- JS `String.prototype.toLowerCase`, restricted to the ASCII mapping of
`Char.toLower` (the program only compares ASCII titles and artists). -/
def lowerStr (s : String) : String := String.mk (s.data.map Char.toLower)

/-- Char-list test backing the JS string searches: does `l` start with `p`? -/
def listStartsWith : List Char → List Char → Bool
  | _, [] => true
  | [], _ :: _ => false
  | a :: as, b :: bs => a == b && listStartsWith as bs

/-- JS `String.prototype.includes` on char lists: does `p` occur in `l`? -/
def listIncludes : List Char → List Char → Bool
  | [], p => p.isEmpty
  | a :: as, p => listStartsWith (a :: as) p || listIncludes as p

/-- JS `s.includes(t)`. -/
def strIncludes (s t : String) : Bool := listIncludes s.data t.data

/-- JS `String.prototype.replace` with a plain-string pattern and empty
replacement string: removes the first occurrence of `p`, if any. -/
def removeFirstOccur (p : List Char) : List Char → List Char
  | [] => []
  | a :: as =>
    if listStartsWith (a :: as) p then (a :: as).drop p.length
    else a :: removeFirstOccur p as

/-- Node `path.extname` on the character list of a bare file name (no
directory separators): the substring from the last dot to the end, empty
when there is no dot or when the only/last dot is the leading character;
Node additionally maps the literal name ".." to the empty extension. -/
def extnameChars (cs : List Char) : List Char :=
  if cs = ['.', '.'] then []
  else
    let rev := cs.reverse
    let tl := rev.takeWhile (fun c => c != '.')
    if tl.length = rev.length then []
    else if tl.length + 1 = rev.length then []
    else '.' :: tl.reverse

/-- JS `x || fallback` on an optional string field: `undefined` and the
empty string are falsy. -/
def jsOrString (v : Option String) (fallback : String) : String :=
  match v with
  | none => fallback
  | some s => if s = "" then fallback else s

/-- Genre selection `common.genre ? common.genre[0] : 'Unknown'`: a missing
array is falsy, a present array (even empty) is truthy, and indexing an
empty array yields `undefined`. -/
def pickGenre : Option (List String) → Option String
  | none => some "Unknown"
  | some [] => none
  | some (g :: _) => some g

/-- Observable state of a catalog backing file, classified exactly the way
`readJSON` distinguishes contents: the file may be absent, hold content
whose trim is empty, hold content `JSON.parse` rejects, or hold a valid
serialization of a collection.  `JSON.stringify` output is never blank and
parses back to the written value, and the literal `"[]"` written on reset
parses to the empty array, so both are `valid` states. -/
inductive Stored (α : Type) where
  | absent
  | blank
  | invalid
  | valid (data : α)
deriving DecidableEq

/-- Function `readJSON` (src/index.js lines 47-64): absent file → write
"[]" and return `[]`; blank content → write "[]" and return `[]`; parse
failure → write "[]" and return `[]`; otherwise return the parsed
collection with the file untouched. -/
def readJSON {α : Type} : Stored (List α) → List α × Stored (List α)
  | .absent => ([], .valid [])
  | .blank => ([], .valid [])
  | .invalid => ([], .valid [])
  | .valid l => (l, .valid l)

/-- Function `writeJSON` (src/index.js lines 66-68): serialize the whole
collection over the backing file. -/
def writeJSON {α : Type} (l : List α) : Stored (List α) := .valid l

/-- Song record as built at src/index.js lines 210-221. -/
structure Song where
  id : String
  title : String
  artist : String
  album : String
  genre : Option String
  duration : Nat
  albumArt : Option String
  lyrics : Option String
  driveFileId : Option String
  createdAt : Nat
deriving DecidableEq

/-- Fields of `metadata.common` that the upload handler reads. -/
structure TagCommon where
  title : Option String
  artist : Option String
  album : Option String
  genre : Option (List String)
deriving DecidableEq

/-- Outcome of `mm.parseFile` (src/index.js lines 115-122): a thrown error
is caught and leaves `metadata = {}` and `common = {}`. -/
inductive TagResult where
  | failed
  | ok (common : TagCommon) (duration : Option Nat)
deriving DecidableEq

def tagsCommon : TagResult → TagCommon
  | .failed => ⟨none, none, none, none⟩
  | .ok c _ => c

def tagsDuration : TagResult → Option Nat
  | .failed => none
  | .ok _ d => d

/-- The `req.file` object staged by multer. -/
structure UpFile where
  originalname : String
  filename : String
  mimetype : String
deriving DecidableEq

/-- Outcome of the Drive upload try-block (src/index.js lines 133-162):
`files.create` may throw, or succeed and then `permissions.create` may
throw; either throw lands in the same catch clause. -/
inductive DriveOutcome where
  | createFailed
  | permFailed (fileId : String)
  | ok (fileId : String)
deriving DecidableEq

/-- Results of every external call an upload request makes, plus the uuid
and timestamp it draws. -/
structure UploadEnv where
  file : Option UpFile
  driveInitOk : Bool
  tags : TagResult
  driveStep : DriveOutcome
  unlinkFails : Bool
  art : Option String
  genreHit : Option String
  lyricsHit : Option String
  newId : String
  now : Nat
deriving DecidableEq

/-- Server-side state an upload request can touch: whether this request's
staged temporary file exists, the remote objects created so far, and the
songs backing file. -/
structure SysState where
  tempStaged : Bool
  remote : List String
  songsFile : Stored (List Song)
deriving DecidableEq

inductive UploadResp where
  | ok (song : Song)
  | badRequest (msg : String)
  | serverErr (msg : String)
deriving DecidableEq

def UploadResp.status : UploadResp → Nat
  | .ok _ => 200
  | .badRequest _ => 400
  | .serverErr _ => 500

/-- Handler POST /upload (src/index.js lines 99-226).  Before the handler
body runs, multer stages the incoming file part, if any; the staged file
then exists.  Each unlink is best-effort: when `env.unlinkFails` the file
survives and the error is only logged. -/
def uploadHandler (env : UploadEnv) (st : SysState) : UploadResp × SysState :=
  match env.file with
  | none => (.badRequest "No file uploaded", st)
  | some f =>
    let st := { st with tempStaged := true }
    if env.driveInitOk then
      let c := tagsCommon env.tags
      let fallbackTitle :=
        String.mk (removeFirstOccur (extnameChars f.originalname.data) f.originalname.data)
      let title := jsOrString c.title fallbackTitle
      let artist := jsOrString c.artist "Unknown"
      let album := jsOrString c.album "Unknown"
      let genre0 := pickGenre c.genre
      let duration := (tagsDuration env.tags).getD 0
      match env.driveStep with
      | .createFailed =>
        (.serverErr "Failed to upload to Google Drive",
         { st with tempStaged := env.unlinkFails })
      | .permFailed fid =>
        (.serverErr "Failed to upload to Google Drive",
         { st with remote := st.remote ++ [fid], tempStaged := env.unlinkFails })
      | .ok fid =>
        let st := { st with remote := st.remote ++ [fid], tempStaged := env.unlinkFails }
        let cond := (title != "") && (artist != "Unknown")
        let albumArt := if cond then env.art else none
        let genre :=
          if cond then
            match env.genreHit with
            | some g => some g
            | none => genre0
          else genre0
        let lyrics := if cond then env.lyricsHit else none
        let newSong : Song :=
          { id := env.newId, title := title, artist := artist, album := album,
            genre := genre, duration := duration, albumArt := albumArt,
            lyrics := lyrics, driveFileId := some fid, createdAt := env.now }
        let songs := (readJSON st.songsFile).1
        (.ok newSong, { st with songsFile := writeJSON (songs ++ [newSong]) })
    else
      (.serverErr "Failed to initialize Google Drive",
       { st with tempStaged := env.unlinkFails })

/-- Outcomes of the external calls a stream request makes. -/
structure StreamEnv where
  driveInitOk : Bool
  fetchOk : Bool
deriving DecidableEq

inductive StreamResp where
  | streamOk
  | notFound (msg : String)
  | serverErr (msg : String)
deriving DecidableEq

def StreamResp.status : StreamResp → Nat
  | .streamOk => 200
  | .notFound _ => 404
  | .serverErr _ => 500

/-- Response logic of GET /stream/:id over the songs collection it read.
The check `!song.driveFileId` is JS falsiness: a missing handle and the
empty-string handle both fail it. -/
def streamResp (env : StreamEnv) (songs : List Song) (id : String) : StreamResp :=
  match songs.find? (fun s => s.id == id) with
  | none => .notFound "Song not found"
  | some song =>
    match song.driveFileId with
    | none => .notFound "Audio file not found"
    | some h =>
      if h == "" then .notFound "Audio file not found"
      else if env.driveInitOk then
        if env.fetchOk then .streamOk
        else .serverErr "Failed to stream audio"
      else .serverErr "Failed to initialize Google Drive"

/-- Handler GET /stream/:id (src/index.js lines 235-270): the only write it
can perform is the corruption reset inside its `readJSON` call. -/
def streamHandler (env : StreamEnv) (sf : Stored (List Song)) (id : String) :
    StreamResp × Stored (List Song) :=
  let r := readJSON sf
  (streamResp env r.1 id, r.2)

/-- An object held in a playlist's `songs` array.  JS compares objects by
reference, so each entry carries the allocation reference of the object
alongside its structural value; `JSON.parse` always allocates fresh
objects, distinct from those of every other parse. -/
structure PEntry where
  ref : Nat
  song : Song
deriving DecidableEq

structure Playlist where
  id : String
  name : String
  songs : List PEntry
deriving DecidableEq

/-- All object references occurring in the playlists' song arrays. -/
def refsOf (playlists : List Playlist) : List Nat :=
  (playlists.map (fun p => p.songs.map (fun e => e.ref))).flatten

inductive AddResp where
  | ok (pl : Playlist)
  | notFound (msg : String)
deriving DecidableEq

def AddResp.status : AddResp → Nat
  | .ok _ => 200
  | .notFound _ => 404

/-- In-place mutation of the found playlist followed by writing the whole
array back: replace the first playlist with the given id. -/
def setFirstById (pid : String) (pl : Playlist) : List Playlist → List Playlist
  | [] => []
  | p :: ps => if p.id == pid then pl :: ps else p :: setFirstById pid pl ps

/-- Handler PUT /playlist/:id/add (src/index.js lines 299-312).  `freshRef`
is the reference of the song object that the handler's own
`readJSON(SONGS_FILE)` call just allocated; the guard
`playlist.songs.includes(song)` is reference equality (SameValueZero on
objects). -/
def addSongToPlaylist (playlists : List Playlist) (songs : List Song)
    (pid songId : String) (freshRef : Nat) : AddResp × List Playlist :=
  match playlists.find? (fun p => p.id == pid) with
  | none => (.notFound "Playlist not found", playlists)
  | some pl =>
    match songs.find? (fun s => s.id == songId) with
    | none => (.notFound "Song not found", playlists)
    | some song =>
      let pl' :=
        if pl.songs.any (fun e => e.ref == freshRef) then pl
        else { pl with songs := pl.songs ++ [⟨freshRef, song⟩] }
      (.ok pl', setFirstById pid pl' playlists)

/-- Handler GET /search (src/index.js lines 273-278). -/
def searchSongs (songs : List Song) (q : Option String) : List Song :=
  let qq := lowerStr (q.getD "")
  songs.filter
    (fun s => strIncludes (lowerStr s.title) qq || strIncludes (lowerStr s.artist) qq)

/-- Modelled from the spec's words, for comparison with the code's title
fallback: "the original filename with its extension stripped" — the name
minus its trailing `path.extname` suffix. -/
def stripExtSpec (name : String) : String :=
  String.mk (name.data.take (name.data.length - (extnameChars name.data).length))

/-- Sample song used in concrete instances. -/
def songA : Song :=
  ⟨"s1", "Blue", "Ana", "AlbumA", some "Pop", 100, none, none, some "d1", 0⟩

/-- Sample playlist already holding `songA` (under allocation reference 0). -/
def plA : Playlist := ⟨"p1", "Mix", [⟨0, songA⟩]⟩

/-- Sample song taken from the spec's search example. -/
def blueSkies : Song :=
  ⟨"b1", "Blue Skies", "Ana", "AlbumB", some "Jazz", 180, none, none, some "d2", 0⟩

/-- Concrete empty server state used by witnesses. -/
def st0 : SysState := ⟨false, [], Stored.valid []⟩

/-- Concrete uploaded file with an ordinary name. -/
def fileA : UpFile := ⟨"song.mp3", "u.mp3", "audio/mpeg"⟩

/-- Concrete stored song lacking a remote-storage handle. -/
def songNoDrive : Song := ⟨"s2", "T", "A", "Al", some "Pop", 10, none, none, none, 0⟩

theorem listStartsWith_iff (p l : List Char) :
    listStartsWith l p = true ↔ ∃ t, l = p ++ t := by
  induction p generalizing l with
  | nil => simp [listStartsWith]
  | cons b bs ih =>
    cases l with
    | nil => simp [listStartsWith]
    | cons a as =>
      simp [listStartsWith, ih, List.cons.injEq, exists_and_left]

theorem listIncludes_iff (l p : List Char) :
    listIncludes l p = true ↔ ∃ s t, l = s ++ p ++ t := by
  induction l with
  | nil =>
    cases p <;> simp [listIncludes]
  | cons a as ih =>
    simp only [listIncludes, Bool.or_eq_true, listStartsWith_iff, ih]
    constructor
    · rintro (⟨t, ht⟩ | ⟨s, t, hst⟩)
      · exact ⟨[], t, by simp [ht]⟩
      · exact ⟨a :: s, t, by simp [hst]⟩
    · rintro ⟨s, t, h⟩
      cases s with
      | nil => exact Or.inl ⟨t, by simpa using h⟩
      | cons x xs =>
        right
        simp only [List.cons_append, List.cons.injEq] at h
        exact ⟨xs, t, h.2⟩

theorem listIncludes_nil (l : List Char) : listIncludes l [] = true := by
  cases l <;> simp [listIncludes, listStartsWith]

theorem listStartsWith_refl (l : List Char) : listStartsWith l l = true := by
  simpa using (listStartsWith_iff l (l ++ [])).mpr ⟨[], rfl⟩

theorem removeFirstOccur_append (p stem : List Char)
    (h : ∀ i, i < stem.length → listStartsWith ((stem ++ p).drop i) p = false) :
    removeFirstOccur p (stem ++ p) = stem := by
  induction stem with
  | nil =>
    cases p with
    | nil => rfl
    | cons c cs =>
      simp [removeFirstOccur, listStartsWith_refl, List.drop_length]
  | cons a s ih =>
    have h0 : listStartsWith (a :: (s ++ p)) p = false := by
      simpa using h 0 (by simp)
    have hrest : ∀ i, i < s.length → listStartsWith ((s ++ p).drop i) p = false := by
      intro i hi
      have hlt : i + 1 < (a :: s).length := by
        simp only [List.length_cons]
        omega
      simpa [List.drop_succ_cons] using h (i + 1) hlt
    simp [removeFirstOccur, h0, ih hrest]

theorem title_fallback_eq_strip (nm : String) (stem : List Char)
    (hsplit : nm.data = stem ++ extnameChars nm.data)
    (hocc : ∀ i, i < stem.length →
      listStartsWith ((stem ++ extnameChars nm.data).drop i) (extnameChars nm.data) = false) :
    String.mk (removeFirstOccur (extnameChars nm.data) nm.data) = stripExtSpec nm ∧
      String.mk (removeFirstOccur (extnameChars nm.data) nm.data) = String.mk stem := by
  simp only [stripExtSpec]
  generalize he : extnameChars nm.data = e at hsplit hocc ⊢
  rw [hsplit]
  rw [removeFirstOccur_append e stem hocc]
  simp [Nat.add_sub_cancel, List.take_left]

/-- Claim C3: for a Catalog Store backing file that is absent, blank, or
holds unparseable content, a read returns the empty collection without an
exception, rewrites the backing file as an empty collection, and a
subsequent read returns the same empty collection. -/
theorem readJSON_corrupt_resets_empty {α : Type} (sf : Stored (List α))
    (h : sf = Stored.absent ∨ sf = Stored.blank ∨ sf = Stored.invalid) :
    readJSON sf = ([], Stored.valid []) ∧
      readJSON (readJSON sf).2 = ([], Stored.valid ([] : List α)) := by
  rcases h with rfl | rfl | rfl <;> exact ⟨rfl, rfl⟩

theorem readJSON_corrupt_resets_empty_witness :
    readJSON (Stored.invalid : Stored (List Song)) = ([], Stored.valid []) ∧
      readJSON (readJSON (Stored.invalid : Stored (List Song))).2 = ([], Stored.valid []) :=
  readJSON_corrupt_resets_empty Stored.invalid (Or.inr (Or.inr rfl))

/-- Claim C9: writing a collection to a Catalog Store backing file and then
reading that file returns the same collection, with the file left exactly
as the write produced it. -/
theorem writeJSON_readJSON_round_trip {α : Type} (l : List α) :
    readJSON (writeJSON l) = (l, writeJSON l) := rfl

/-- Claim C7: an upload request with no file part yields the 400 response
and leaves every piece of server state (catalog, remote objects, staging)
untouched; no later pipeline stage runs. -/
theorem upload_no_file_400_no_effects (env : UploadEnv) (st : SysState)
    (h : env.file = none) :
    (uploadHandler env st).1 = UploadResp.badRequest "No file uploaded" ∧
      (uploadHandler env st).1.status = 400 ∧
      (uploadHandler env st).2 = st := by
  simp [uploadHandler, h, UploadResp.status]

def envNoFile : UploadEnv :=
  ⟨none, true, TagResult.failed, DriveOutcome.createFailed, false, none, none, none, "id5", 5⟩

theorem upload_no_file_400_no_effects_witness :
    (uploadHandler envNoFile st0).1 = UploadResp.badRequest "No file uploaded" ∧
      (uploadHandler envNoFile st0).1.status = 400 ∧
      (uploadHandler envNoFile st0).2 = st0 :=
  upload_no_file_400_no_effects envNoFile st0 rfl

/-- Claim C2: when the Drive upload step throws (either `files.create` or
the following `permissions.create`), the upload request answers 500, the
songs collection file is untouched, and the staged temporary file is gone
(its unlink having succeeded). -/
theorem upload_drive_failure_500 (env : UploadEnv) (st : SysState) (f : UpFile)
    (hf : env.file = some f) (hinit : env.driveInitOk = true)
    (hfail : env.driveStep = DriveOutcome.createFailed ∨
      ∃ fid, env.driveStep = DriveOutcome.permFailed fid)
    (hunlink : env.unlinkFails = false) :
    (uploadHandler env st).1.status = 500 ∧
      (uploadHandler env st).2.songsFile = st.songsFile ∧
      (uploadHandler env st).2.tempStaged = false := by
  rcases hfail with hstep | ⟨fid, hstep⟩ <;>
    simp [uploadHandler, hf, hinit, hstep, hunlink, UploadResp.status]

def envFail : UploadEnv :=
  ⟨some fileA, true, TagResult.failed, DriveOutcome.createFailed, false, none, none, none, "id3", 3⟩

theorem upload_drive_failure_500_witness :
    (uploadHandler envFail st0).1.status = 500 ∧
      (uploadHandler envFail st0).2.songsFile = st0.songsFile ∧
      (uploadHandler envFail st0).2.tempStaged = false :=
  upload_drive_failure_500 envFail st0 fileA rfl rfl (Or.inl rfl) rfl

/-- Claim C5: for every upload that passes the file-present check and
reaches the remote-upload attempt, deletion of the staged temporary file is
attempted on every exit path (the file survives exactly when the unlink
itself fails), and the unlink outcome never changes the response sent to
the caller. -/
theorem upload_temp_cleanup_best_effort (env : UploadEnv) (st : SysState) (f : UpFile)
    (hf : env.file = some f) (hinit : env.driveInitOk = true) :
    (uploadHandler env st).2.tempStaged = env.unlinkFails ∧
      ∀ b : Bool,
        (uploadHandler { env with unlinkFails := b } st).1 = (uploadHandler env st).1 := by
  constructor
  · cases hstep : env.driveStep <;> simp [uploadHandler, hf, hinit, hstep]
  · intro b
    cases hstep : env.driveStep <;> simp [uploadHandler, hf, hinit, hstep]

def envOk : UploadEnv :=
  ⟨some fileA, true, TagResult.failed, DriveOutcome.ok "fid9", false, none, none, none, "id4", 4⟩

theorem upload_temp_cleanup_best_effort_witness :
    (uploadHandler envOk st0).2.tempStaged = envOk.unlinkFails ∧
      ∀ b : Bool,
        (uploadHandler { envOk with unlinkFails := b } st0).1 = (uploadHandler envOk st0).1 :=
  upload_temp_cleanup_best_effort envOk st0 fileA rfl rfl

/-- Claim C6: a stream request for an id not in the catalog answers 404
"Song not found"; one for a song whose remote-storage handle is absent or
empty answers 404 "Audio file not found"; in every case the observable
songs collection is unchanged. -/
theorem stream_not_found_cases (env : StreamEnv) (sf : Stored (List Song)) (id : String) :
    ((readJSON sf).1.find? (fun s => s.id == id) = none →
        streamHandler env sf id = (StreamResp.notFound "Song not found", (readJSON sf).2)) ∧
      (∀ song, (readJSON sf).1.find? (fun s => s.id == id) = some song →
        song.driveFileId = none ∨ song.driveFileId = some "" →
        streamHandler env sf id = (StreamResp.notFound "Audio file not found", (readJSON sf).2)) ∧
      (StreamResp.notFound "Song not found").status = 404 ∧
      (StreamResp.notFound "Audio file not found").status = 404 ∧
      (readJSON (streamHandler env sf id).2).1 = (readJSON sf).1 := by
  refine ⟨?_, ?_, rfl, rfl, ?_⟩
  · intro h
    simp [streamHandler, streamResp, h]
  · rintro song h (hd | hd) <;> simp [streamHandler, streamResp, h, hd]
  · cases sf <;> rfl

theorem stream_not_found_cases_witness :
    streamHandler ⟨true, true⟩ (Stored.valid [songNoDrive]) "zzz" =
        (StreamResp.notFound "Song not found", Stored.valid [songNoDrive]) ∧
      streamHandler ⟨true, true⟩ (Stored.valid [songNoDrive]) "s2" =
        (StreamResp.notFound "Audio file not found", Stored.valid [songNoDrive]) :=
  ⟨(stream_not_found_cases ⟨true, true⟩ (Stored.valid [songNoDrive]) "zzz").1 (by decide),
   (stream_not_found_cases ⟨true, true⟩ (Stored.valid [songNoDrive]) "s2").2.1 songNoDrive
     (by decide) (Or.inl rfl)⟩

/-- Claim C8: search returns exactly the songs whose lowercased title or
lowercased artist contains the lowercased query as a contiguous substring;
in particular the spec's "Blue Skies" by "Ana" example behaves as stated. -/
theorem search_case_insensitive_substring :
    (∀ (songs : List Song) (q : String) (s : Song),
        s ∈ searchSongs songs (some q) ↔
          s ∈ songs ∧
            ((∃ pre post, (lowerStr s.title).data = pre ++ (lowerStr q).data ++ post) ∨
             (∃ pre post, (lowerStr s.artist).data = pre ++ (lowerStr q).data ++ post))) ∧
      blueSkies ∈ searchSongs [blueSkies] (some "blue") ∧
      blueSkies ∈ searchSongs [blueSkies] (some "ANA") ∧
      blueSkies ∈ searchSongs [blueSkies] (some "ue sk") ∧
      blueSkies ∉ searchSongs [blueSkies] (some "red") := by
  refine ⟨?_, by decide, by decide, by decide, by decide⟩
  intro songs q s
  simp [searchSongs, List.mem_filter, strIncludes, listIncludes_iff]

/-- Claim C10: a search request whose query parameter is absent or empty
returns the entire song collection. -/
theorem search_empty_query_returns_all (songs : List Song) :
    searchSongs songs none = songs ∧ searchSongs songs (some "") = songs := by
  have hq : (lowerStr "").data = [] := rfl
  constructor <;>
  · apply List.filter_eq_self.mpr
    intro s _
    simp [strIncludes, hq, listIncludes_nil]

/-- Counterexample to claim C1: playlist "p1" already stores the song with
id "s1" (as the object allocated under reference 0); adding that id again
loads a fresh object (reference 1), the reference-equality guard does not
fire, and the playlist ends up with two entries whose song id is "s1". -/
theorem playlist_add_duplicates_by_id_cex :
    1 ∉ refsOf [plA] ∧
      ((addSongToPlaylist [plA] [songA] "p1" "s1" 1).2.map
        (fun p => (p.songs.filter (fun e => e.song.id == "s1")).length)) = [2] := by
  decide

/-- Claim C1 as amended: the duplicate guard compares object references, and
the song object the handler just loaded from storage is freshly allocated,
so the guard never fires: the add operation always appends the song to the
found playlist, even when an entry with the same id is already present. -/
theorem playlist_add_appends_fresh_song (playlists : List Playlist) (songs : List Song)
    (pid sid : String) (freshRef : Nat) (pl : Playlist) (song : Song)
    (hp : playlists.find? (fun p => p.id == pid) = some pl)
    (hs : songs.find? (fun s => s.id == sid) = some song)
    (hfresh : freshRef ∉ refsOf playlists) :
    (addSongToPlaylist playlists songs pid sid freshRef).1 =
      AddResp.ok { pl with songs := pl.songs ++ [⟨freshRef, song⟩] } := by
  have hmem : pl ∈ playlists := List.mem_of_find?_eq_some hp
  have hguard : pl.songs.any (fun e => e.ref == freshRef) = false := by
    rw [Bool.eq_false_iff, Ne, List.any_eq_true]
    rintro ⟨e, he, href⟩
    have heq : e.ref = freshRef := by simpa using href
    apply hfresh
    have h1 : (pl.songs.map fun x => x.ref) ∈ playlists.map fun p => p.songs.map fun x => x.ref :=
      List.mem_map.mpr ⟨pl, hmem, rfl⟩
    have h2 : freshRef ∈ pl.songs.map fun x => x.ref :=
      heq ▸ List.mem_map.mpr ⟨e, he, rfl⟩
    exact List.mem_flatten.mpr ⟨_, h1, h2⟩
  simp [addSongToPlaylist, hp, hs, hguard]

theorem playlist_add_appends_fresh_song_witness :
    (addSongToPlaylist [plA] [songA] "p1" "s1" 1).1 =
      AddResp.ok { plA with songs := plA.songs ++ [⟨1, songA⟩] } :=
  playlist_add_appends_fresh_song [plA] [songA] "p1" "s1" 1 plA songA (by decide) (by decide)
    (by decide)

/-- Concrete upload whose file name holds its extension twice. -/
def fileC4 : UpFile := ⟨"demo.wav.backup.wav", "u1.wav", "audio/mpeg"⟩

/-- Concrete upload environment for the C4 counterexample: tag extraction
fails, the Drive upload succeeds. -/
def envC4 : UploadEnv :=
  ⟨some fileC4, true, TagResult.failed, DriveOutcome.ok "fid1", false, none, none, none, "id1", 7⟩

/-- Counterexample to claim C4: uploading "demo.wav.backup.wav" with failed
tag extraction titles the song "demo.backup.wav" — JS `replace` removes the
first occurrence of the extension substring — while the filename with its
extension stripped is "demo.wav.backup". -/
theorem upload_title_not_ext_stripped_cex :
    (uploadHandler envC4 st0).1 =
        UploadResp.ok
          ⟨"id1", "demo.backup.wav", "Unknown", "Unknown", some "Unknown", 0, none, none,
            some "fid1", 7⟩ ∧
      "demo.backup.wav" ≠ stripExtSpec "demo.wav.backup.wav" ∧
      stripExtSpec "demo.wav.backup.wav" = "demo.wav.backup" := by
  decide

/-- Claim C4 as amended: with tag extraction failed or all tag fields
missing, artist and album fall back to "Unknown", genre to the string
"Unknown", duration to 0, and the title falls back to the original filename
with the first occurrence of its extension removed — which equals the
filename with its extension stripped whenever the extension substring does
not occur before the trailing position. -/
theorem upload_default_fields_amended (env : UploadEnv) (st : SysState) (f : UpFile)
    (stem : List Char) (fid : String)
    (hf : env.file = some f) (hinit : env.driveInitOk = true)
    (hstep : env.driveStep = DriveOutcome.ok fid)
    (htags : tagsCommon env.tags = ⟨none, none, none, none⟩)
    (hdur : tagsDuration env.tags = none)
    (hsplit : f.originalname.data = stem ++ extnameChars f.originalname.data)
    (hocc : ∀ i, i < stem.length →
      listStartsWith ((stem ++ extnameChars f.originalname.data).drop i)
        (extnameChars f.originalname.data) = false) :
    ∃ s, (uploadHandler env st).1 = UploadResp.ok s ∧
      s.title = stripExtSpec f.originalname ∧
      s.title = String.mk stem ∧
      s.artist = "Unknown" ∧ s.album = "Unknown" ∧
      s.genre = some "Unknown" ∧ s.duration = 0 := by
  refine ⟨⟨env.newId,
      String.mk (removeFirstOccur (extnameChars f.originalname.data) f.originalname.data),
      "Unknown", "Unknown", some "Unknown", 0, none, none, some fid, env.now⟩,
    ?_, ?_, ?_, rfl, rfl, rfl, rfl⟩
  · simp [uploadHandler, hf, hinit, hstep, htags, hdur, jsOrString, pickGenre]
  · exact (title_fallback_eq_strip f.originalname stem hsplit hocc).1
  · exact (title_fallback_eq_strip f.originalname stem hsplit hocc).2

/-- Concrete upload environment for the C4 witness: ordinary file name,
failed tag extraction, successful Drive upload. -/
def envDef : UploadEnv :=
  ⟨some fileA, true, TagResult.failed, DriveOutcome.ok "fid1", false, none, none, none, "id2", 9⟩

theorem upload_default_fields_amended_witness :
    ∃ s, (uploadHandler envDef st0).1 = UploadResp.ok s ∧
      s.title = stripExtSpec "song.mp3" ∧
      s.title = String.mk "song".data ∧
      s.artist = "Unknown" ∧ s.album = "Unknown" ∧
      s.genre = some "Unknown" ∧ s.duration = 0 :=
  upload_default_fields_amended envDef st0 fileA "song".data "fid1" rfl rfl rfl rfl rfl
    (by decide) (by decide)
